import Mathlib

/-
Shallow embedding of ioBroker/plugin-base (the plugin lifecycle runtime):
 * `PluginBase`   — the plugin contract and its enable-resolution cascade
                    (source file `lib/PluginBase`),
 * `PluginHandler` — the registry/orchestrator over named plugin entries
                    (source file `lib/PluginHandler`).
State that lives outside the process (the states/objects databases) is
modelled by an explicit `World` record threaded through every operation;
JavaScript in-place mutation of plugin instances, entries and configs is
modelled by returning the updated values alongside each result.
A rejected promise is modelled by `Except.error`; since JavaScript
exceptions do not roll mutations back, failing operations still return
their (partially) mutated state.
-/

set_option autoImplicit false

namespace PluginSpec

/-- JavaScript runtime values, restricted to the shapes the plugin code
inspects: `undefined`, `null`, booleans, numbers, strings and a collapsed
"some object" case (the code only ever asks `typeof v` and truthiness). -/
inductive JSVal where
  | undef
  | null
  | bool (b : Bool)
  | num (n : Int)
  | str (s : String)
  | obj
  deriving DecidableEq

/-- JavaScript truthiness (`!!v`). -/
def JSVal.truthy : JSVal → Bool
  | .undef => false
  | .null => false
  | .bool b => b
  | .num n => n != 0
  | .str s => s != ""
  | .obj => true

/-- The JavaScript test `typeof v === 'object'`; note `typeof null` is
`'object'`. -/
def JSVal.isObjectType : JSVal → Bool
  | .null => true
  | .obj => true
  | _ => false

/-- A record in the states database: only the fields the code reads or
writes (`val`, `ack`, `from`); `fromId` embeds the `from` field. -/
structure JSState where
  val : JSVal
  ack : Bool
  fromId : String
  deriving DecidableEq

/-- The guard from `PluginBase.initPlugin`:
`state && typeof state.val !== 'object' && state.val !== undefined`.
Returns the concrete persisted value when the guard passes. -/
def concreteValOf : Option JSState → Option JSVal
  | none => none
  | some st => if !st.val.isObjectType && st.val != .undef then some st.val else none

/-- First-match association lookup (JavaScript object property read). -/
def lookupAssoc {α : Type} : List (String × α) → String → Option α
  | [], _ => none
  | (k, v) :: rest, key => if k = key then some v else lookupAssoc rest key

/-- Association update: overwrite the first binding of `key` in place, or
append a new binding (JavaScript object property write, which keeps the
insertion position of an existing key). -/
def setAssoc {α : Type} : List (String × α) → String → α → List (String × α)
  | [], key, v => [(key, v)]
  | (k, w) :: rest, key, v =>
      if k = key then (key, v) :: rest else (k, w) :: setAssoc rest key v

/-- The external world: the states database content, the ids touched in the
objects database, and an observation log of implementer `destroy()`
invocations (instrumentation making "destroy was called" provable). -/
structure World where
  states : List (String × JSState)
  objects : List String
  destroyLog : List String
  deriving DecidableEq

/-- Plugin configuration: the one key the code interprets (`enabled`) plus
an opaque implementer-defined remainder, passed through verbatim. -/
structure Config where
  enabled : JSVal
  extra : String
  deriving DecidableEq

/-- The `common` section of an io-package file: the fields the cascade
reads (`common.name`, `common.host`). -/
structure IoCommon where
  name : String
  host : Option String
  deriving DecidableEq

/-- The parent io-package (`parentConfig`); `common` is optional because the
code guards it with `parentConfig?.common?.host`. -/
structure IoPackage where
  common : Option IoCommon
  deriving DecidableEq

/-- Outcome of the implementer-supplied `init` override (the base class
default is `throws "Not implemented"`). -/
inductive InitBehavior where
  | ok
  | throws (msg : String)
  deriving DecidableEq

/-- Outcome of the implementer-supplied `destroy` override (the base class
default is `ret true`). -/
inductive DestroyBehavior where
  | ret (b : Bool)
  | throws (msg : String)
  deriving DecidableEq

/-- The `pluginScope` setting. -/
inductive Scope where
  | adapter
  | controller
  deriving DecidableEq

/-- A `PluginBase` instance. `objectsDbSet`/`statesDbSet` model whether
`setDatabase` has injected the respective handle (`null` before that);
`initCalls` counts invocations of the implementer's `init` (instrumentation
making "init was (not) invoked" provable); `initBehavior`/`destroyBehavior`
are the implementer-supplied overrides, abstracted to their outcome.
Logging fields (`log`, `iobrokerConfig`, `parentPackage`, settings copies)
have no behavioral effect on any operation and are elided. -/
structure PluginBase where
  pluginScope : Scope
  pluginNamespace : String
  isActive : Bool
  objectsDbSet : Bool
  statesDbSet : Bool
  parentIoPackage : Option IoPackage
  initBehavior : InitBehavior
  destroyBehavior : DestroyBehavior
  initCalls : Nat
  deriving DecidableEq

/-- `PluginBase.getState(id)`: rejects when the states DB handle is absent,
otherwise reads the state (a missing id yields `null`, i.e. `none`). -/
def PluginBase.getState (p : PluginBase) (w : World) (id : String) :
    Except String (Option JSState) :=
  if !p.statesDbSet then .error "States Database not initialized."
  else .ok (lookupAssoc w.states id)

/-- `PluginBase.setState(id, state)`: rejects when the states DB handle is
absent, otherwise overwrites the state. -/
def PluginBase.setState (p : PluginBase) (w : World) (id : String) (st : JSState) :
    Except String World :=
  if !p.statesDbSet then .error "States Database not initialized."
  else .ok { w with states := setAssoc w.states id st }

/-- `PluginBase.extendObject(id, obj)`: rejects when the objects DB handle
is absent; the written object payloads (folder/state metadata) have no
behavioral effect on the lifecycle, so only the touched id is recorded. -/
def PluginBase.extendObject (p : PluginBase) (w : World) (id : String) :
    Except String World :=
  if !p.objectsDbSet then .error "Objects Database not initialized."
  else .ok { w with objects := w.objects ++ [id] }

/-- `PluginBase.setActive(active)`: flips the in-memory flag first, then
persists `<pluginNamespace>.enabled = {val, ack: true, from}`; a rejected
write leaves the already-mutated flag in place and propagates. -/
def PluginBase.setActive (p : PluginBase) (w : World) (active : Bool) :
    Except String Unit × PluginBase × World :=
  let p1 := { p with isActive := active }
  match p1.setState w (p1.pluginNamespace ++ ".enabled")
      { val := .bool active, ack := true, fromId := p1.pluginNamespace } with
  | .ok w1 => (.ok (), p1, w1)
  | .error e => (.error e, p1, w)

/-- `PluginBase.setDatabase(objectsDb, statesDb)`: injects both handles. -/
def PluginBase.setDatabase (p : PluginBase) : PluginBase :=
  { p with objectsDbSet := true, statesDbSet := true }

/-- The implementer's `init(pluginConfig)`: records the invocation and
produces the outcome the implementer behavior dictates. -/
def PluginBase.init (p : PluginBase) (w : World) :
    Except String Unit × PluginBase × World :=
  let p1 := { p with initCalls := p.initCalls + 1 }
  match p1.initBehavior with
  | .ok => (.ok (), p1, w)
  | .throws m => (.error m, p1, w)

/-- The implementer's `destroy()`: records the invocation in the world's
log and produces the outcome the implementer behavior dictates. -/
def PluginBase.destroy (p : PluginBase) (w : World) :
    Except String Bool × World :=
  let w1 := { w with destroyLog := w.destroyLog ++ [p.pluginNamespace] }
  match p.destroyBehavior with
  | .ret b => (.ok b, w1)
  | .throws m => (.error m, w1)

/-- Embeds the private method `#initialize(pluginConfig, activate)`.
If `activate` is truthy: write the decision into `pluginConfig.enabled`,
run the implementer's `init`, and on success `setActive(true)`; a failure
of either is caught here and answered with `setActive(false)` (whose own
failure escapes). If `activate` is falsy: just `setActive(false)`. -/
def PluginBase.initImpl (p : PluginBase) (cfg : Config) (activate : Bool) (w : World) :
    Except String Unit × PluginBase × Config × World :=
  if activate then
    let cfg1 := { cfg with enabled := .bool activate }
    match p.init w with
    | (.ok _, p1, w1) =>
        match p1.setActive w1 true with
        | (.ok _, p2, w2) => (.ok (), p2, cfg1, w2)
        | (.error _, p2, w2) =>
            let (r, p3, w3) := p2.setActive w2 false
            (r, p3, cfg1, w3)
    | (.error _, p1, w1) =>
        let (r, p2, w2) := p1.setActive w1 false
        (r, p2, cfg1, w2)
  else
    let (r, p1, w1) := p.setActive w false
    (r, p1, cfg, w1)

/-- The try-block of `initPlugin` steps 3–4: best-effort extend the
namespace folder object and the `.enabled` state object, then read the
persisted `.enabled` state; any rejection inside is swallowed and leaves
the read undefined (`none`), keeping the world changes made so far. -/
def PluginBase.readOwnEnabled (p : PluginBase) (w : World) : Option JSState × World :=
  match p.extendObject w p.pluginNamespace with
  | .error _ => (none, w)
  | .ok w1 =>
    match p.extendObject w1 (p.pluginNamespace ++ ".enabled") with
    | .error _ => (none, w1)
    | .ok w2 =>
      match p.getState w2 (p.pluginNamespace ++ ".enabled") with
      | .error _ => (none, w2)
      | .ok st => (st, w2)

/-- Literal part of the host-namespace RegExp: match `cs` verbatim at the
head of the subject, returning the remainder. -/
def matchLit : List Char → List Char → Option (List Char)
  | [], s => some s
  | _ :: _, [] => none
  | c :: cs, d :: ds => if c = d then matchLit cs ds else none

/-- Adapter-name part of the RegExp: `parentConfig.common.name` is
interpolated unescaped into `new RegExp(...)`, so a `.` inside the name is
the wildcard; every other character is literal. -/
def matchNamePart : List Char → List Char → Option (List Char)
  | [], s => some s
  | _ :: _, [] => none
  | c :: cs, d :: ds => if c = '.' ∨ c = d then matchNamePart cs ds else none

/-- After at least one digit was consumed: consume further digits, then
require a literal `.`. -/
def matchMoreDigitsDot : List Char → Option (List Char)
  | [] => none
  | c :: cs => if c.isDigit then matchMoreDigitsDot cs
               else if c = '.' then some cs else none

/-- The `\d+\.` tail of the RegExp. Greedy `\d+` with backtracking is
equivalent to "maximal digit run, then a dot": shortening the run leaves a
digit (not a dot) as the next character. -/
def matchDigitsDot : List Char → Option (List Char)
  | [] => none
  | c :: cs => if c.isDigit then matchMoreDigitsDot cs else none

/-- Match the whole pattern `system\.adapter\.<name>\.\d+\.` at the head of
the subject, returning the remainder after the match. -/
def matchAdapterPat (name : List Char) (s : List Char) : Option (List Char) :=
  match matchLit "system.adapter.".toList s with
  | none => none
  | some s1 =>
    match matchNamePart name s1 with
    | none => none
    | some s2 =>
      match matchLit ".".toList s2 with
      | none => none
      | some s3 => matchDigitsDot s3

/-- `String.prototype.replace` with a non-global RegExp: replace the
leftmost match if any, else return the subject unchanged. -/
def replaceAdapterPat (name repl : List Char) : List Char → List Char
  | [] => []
  | c :: rest =>
    match matchAdapterPat name (c :: rest) with
    | some remainder => repl ++ remainder
    | none => c :: replaceAdapterPat name repl rest

/-- The host-namespace derivation of `initPlugin` step 5b:
`pluginNamespace.replace(new RegExp('system\\.adapter\\.' + name + '\\.\\d+\\.'),
'system.host.' + host + '.')`. -/
def hostNamespaceOf (pluginNamespace adapterName host : String) : String :=
  String.mk (replaceAdapterPat adapterName.toList
    ("system.host." ++ host ++ ".").toList pluginNamespace.toList)

/-- The host-scoped read of `initPlugin` step 5b: `getState` on the derived
namespace's `.enabled`, with a rejection swallowed. -/
def PluginBase.readHostEnabled (p : PluginBase) (w : World) (hostNamespace : String) :
    Option JSState :=
  match p.getState w (hostNamespace ++ ".enabled") with
  | .error _ => none
  | .ok st => st

/-- Step 5c of the cascade: fall back to the configuration's `enabled`
key, defaulting to enabled when it is unspecified
(`pluginConfig.enabled === undefined ? true : !!pluginConfig.enabled`). -/
def PluginBase.resolveFromConfig (p : PluginBase) (cfg : Config) (w : World) :
    Except String Unit × PluginBase × Config × World :=
  p.initImpl cfg (if cfg.enabled = .undef then true else cfg.enabled.truthy) w

/-- Steps 5b–5c of the cascade, reached when no concrete own persisted
value exists: in adapter scope with a truthy `parentConfig?.common?.host`,
read the host-scoped `.enabled` and use it when concrete; otherwise fall
back to the configuration. -/
def PluginBase.resolveWithoutOwn (p : PluginBase) (cfg : Config) (parentConfig : IoPackage)
    (w : World) : Except String Unit × PluginBase × Config × World :=
  if p.pluginScope = .adapter then
    match parentConfig.common with
    | some common =>
      match common.host with
      | some host =>
        if host = "" then p.resolveFromConfig cfg w
        else
          let hostNs := hostNamespaceOf p.pluginNamespace common.name host
          match concreteValOf (p.readHostEnabled w hostNs) with
          | some v => p.initImpl cfg v.truthy w
          | none => p.resolveFromConfig cfg w
      | none => p.resolveFromConfig cfg w
    | none => p.resolveFromConfig cfg w
  else p.resolveFromConfig cfg w

/-- `PluginBase.initPlugin(pluginConfig, parentConfig)`: reject on a missing
configuration, record the parent io-package, best-effort prepare and read
the own persisted `.enabled` (rule 5a), else consult the host-scoped flag
(rule 5b), else the configuration default (rule 5c), and hand the decision
to `#initialize`. The possibly mutated configuration is returned. -/
def PluginBase.recordParent (p : PluginBase) (parentConfig : IoPackage) : PluginBase :=
  { p with parentIoPackage := some parentConfig }

def PluginBase.initPlugin (p : PluginBase) (cfg? : Option Config) (parentConfig : IoPackage)
    (w : World) : Except String Unit × PluginBase × Option Config × World :=
  match cfg? with
  | none => (.error "No configuration for plugin", p, none, w)
  | some cfg =>
    let p0 := p.recordParent parentConfig
    match p0.readOwnEnabled w with
    | (ownState, w0) =>
      match concreteValOf ownState with
      | some v =>
        match p0.initImpl cfg v.truthy w0 with
        | (r, p1, cfg1, w1) => (r, p1, some cfg1, w1)
      | none =>
        match p0.resolveWithoutOwn cfg parentConfig w0 with
        | (r, p1, cfg1, w1) => (r, p1, some cfg1, w1)

/-- One registry entry: the stored configuration and the (possibly absent)
instance. A missing `instance` key and a `null` instance are behaviorally
identical in the source (both falsy, never distinguished), so both are
`none` in `inst`, which embeds the `instance` field. -/
structure PluginEntry where
  config : Config
  inst : Option PluginBase
  deriving DecidableEq

/-- The handler settings the registry actually consults when building a
plugin's settings bundle: the scope and the parent namespace (`ns` embeds
the `namespace` field; logging identity, host configuration, package
metadata and version strings are pass-through and elided). -/
structure HandlerSettings where
  scope : Scope
  ns : String
  deriving DecidableEq

/-- `PluginHandler`: the registry, an insertion-ordered mapping from plugin
name to entry (`#plugins`). -/
structure PluginHandler where
  settings : HandlerSettings
  plugins : List (String × PluginEntry)
  deriving DecidableEq

/-- What the dynamic-loading environment would do for one
`instantiatePlugin` call: the `require.resolve` outcome (`none` = throws,
`some path` = resolved path, which the code additionally checks for
falsiness), whether `require(pluginPath)` succeeds, and the constructor
outcome (`none` = the constructor throws; `some` carries the implementer
behavior of the instance it would build). -/
structure LoadOutcome where
  resolved : Option String
  requireOk : Bool
  constructed : Option (InitBehavior × DestroyBehavior)
  deriving DecidableEq

/-- `pluginExists(name)`: `!!this.#plugins[name]`. -/
def PluginHandler.pluginExists (h : PluginHandler) (name : String) : Bool :=
  (lookupAssoc h.plugins name).isSome

/-- `isPluginInstantiated(name)`: `!!this.#plugins[name]?.instance`. -/
def PluginHandler.isPluginInstantiated (h : PluginHandler) (name : String) : Bool :=
  match lookupAssoc h.plugins name with
  | some entry => entry.inst.isSome
  | none => false

/-- `isPluginActive(name)`: `!!this.#plugins[name]?.instance?.isActive`. -/
def PluginHandler.isPluginActive (h : PluginHandler) (name : String) : Bool :=
  match lookupAssoc h.plugins name with
  | some entry =>
    match entry.inst with
    | some p => p.isActive
    | none => false
  | none => false

/-- `getPluginInstance(name)`: the instance, or `null` when the entry or
its instance is absent. -/
def PluginHandler.getPluginInstance (h : PluginHandler) (name : String) : Option PluginBase :=
  match lookupAssoc h.plugins name with
  | some entry => entry.inst
  | none => none

/-- `getPluginConfig(name)`: the stored configuration, or `null` when the
entry is absent (a stored config object is always truthy). -/
def PluginHandler.getPluginConfig (h : PluginHandler) (name : String) : Option Config :=
  match lookupAssoc h.plugins name with
  | some entry => some entry.config
  | none => none

/-- The instance a successful constructor call builds: the settings bundle
derived from the handler settings, databases not yet injected, inactive. -/
def PluginHandler.freshInstance (h : PluginHandler) (name : String)
    (beh : InitBehavior × DestroyBehavior) : PluginBase :=
  { pluginScope := h.settings.scope
    pluginNamespace := h.settings.ns ++ ".plugins." ++ name
    isActive := false
    objectsDbSet := false
    statesDbSet := false
    parentIoPackage := none
    initBehavior := beh.1
    destroyBehavior := beh.2
    initCalls := 0 }

/-- `instantiatePlugin(name, config, resolveDirs)`: a live instance makes
the call a logged no-op; a `require.resolve` throw, a falsy resolved path,
or a `require` throw are logged and leave the registry untouched (the
entry is only stored after both succeed); then the entry `{config}` is
stored and the constructor runs, a constructor throw being logged and
recorded as `instance = null`. The call never throws. -/
def PluginHandler.instantiatePlugin (h : PluginHandler) (name : String) (config : Config)
    (loader : LoadOutcome) : PluginHandler :=
  if h.isPluginInstantiated name then h
  else
    match loader.resolved with
    | none => h
    | some pluginPath =>
      if pluginPath = "" then h
      else if !loader.requireOk then h
      else
        match loader.constructed with
        | some beh =>
          let entry : PluginEntry := { config := config, inst := some (h.freshInstance name beh) }
          { h with plugins := setAssoc h.plugins name entry }
        | none =>
          let entry : PluginEntry := { config := config, inst := none }
          { h with plugins := setAssoc h.plugins name entry }

/-- `addPlugins(configs, resolveDirs)`: instantiate every configured name
in insertion order; `loader` gives the loading environment per name. -/
def PluginHandler.addPlugins (h : PluginHandler) (configs : List (String × Config))
    (loader : String → LoadOutcome) : PluginHandler :=
  configs.foldl (fun hh c => hh.instantiatePlugin c.1 c.2 (loader c.1)) h

/-- `setDatabaseForPlugin(name, objectsDb, statesDb)`: inject the handles
into the named instance; a no-op without an instance. -/
def PluginHandler.setDatabaseForPlugin (h : PluginHandler) (name : String) : PluginHandler :=
  match lookupAssoc h.plugins name with
  | some entry =>
    match entry.inst with
    | some p =>
      { h with plugins := setAssoc h.plugins name { entry with inst := some p.setDatabase } }
    | none => h
  | none => h

/-- `setDatabaseForPlugins(objectsDb, statesDb)`: inject into every
currently known plugin name. -/
def PluginHandler.setDatabaseForPlugins (h : PluginHandler) : PluginHandler :=
  (h.plugins.map Prod.fst).foldl (fun hh n => hh.setDatabaseForPlugin n) h

/-- `PluginHandler.initPlugin(name, parentConfig)`: requires an instance
(else rejects with `Please instantiate plugin first!`); delegates to the
plugin's `initPlugin` on the stored (shared, mutable) config; a rejection
from it is caught: best-effort `instance.destroy()` (its own rejection only
logged) and the instance is deleted from the entry. With an instance
present the call itself always resolves. -/
def PluginHandler.initPlugin (h : PluginHandler) (name : String) (parentConfig : IoPackage)
    (w : World) : Except String Unit × PluginHandler × World :=
  match lookupAssoc h.plugins name with
  | some entry =>
    match entry.inst with
    | some inst =>
      match inst.initPlugin (some entry.config) parentConfig w with
      | (.ok _, p1, cfg1, w1) =>
        let entry1 : PluginEntry := { config := cfg1.getD entry.config, inst := some p1 }
        (.ok (), { h with plugins := setAssoc h.plugins name entry1 }, w1)
      | (.error _, p1, cfg1, w1) =>
        match p1.destroy w1 with
        | (_, w2) =>
          let entry1 : PluginEntry := { config := cfg1.getD entry.config, inst := none }
          (.ok (), { h with plugins := setAssoc h.plugins name entry1 }, w2)
    | none => (.error "Please instantiate plugin first!", h, w)
  | none => (.error "Please instantiate plugin first!", h, w)

/-- The loop body of `initPlugins`: over the snapshot of names, skip
entries without a (currently live) instance, else await `initPlugin`; a
rejection would abort the pass (there is no catch in the loop), but with
an instance present `initPlugin` always resolves. -/
def PluginHandler.initPluginsGo (parentConfig : IoPackage) :
    PluginHandler → List String → World → Except String Unit × PluginHandler × World
  | h, [], w => (.ok (), h, w)
  | h, n :: rest, w =>
    if h.isPluginInstantiated n then
      match h.initPlugin n parentConfig w with
      | (.ok _, h1, w1) => PluginHandler.initPluginsGo parentConfig h1 rest w1
      | (.error e, h1, w1) => (.error e, h1, w1)
    else PluginHandler.initPluginsGo parentConfig h rest w

/-- `initPlugins(parentConfig)`: initialize every entry that holds an
instance, in entry order. -/
def PluginHandler.initPlugins (h : PluginHandler) (parentConfig : IoPackage) (w : World) :
    Except String Unit × PluginHandler × World :=
  PluginHandler.initPluginsGo parentConfig h (h.plugins.map Prod.fst) w

/-- `destroy(name, force)`: without an instance, success with no action.
Otherwise run the implementer's `destroy()`, a throw being caught and
treated as `false`. If it returned true or `force` is set: when not
forced, first `setActive(false)` (whose rejection escapes and leaves the
mutated instance in place), then delete the instance and report success;
when forced, delete without deactivation. Else keep the instance and
report failure. -/
def PluginHandler.destroy (h : PluginHandler) (name : String) (force : Bool) (w : World) :
    Except String Bool × PluginHandler × World :=
  match lookupAssoc h.plugins name with
  | some entry =>
    match entry.inst with
    | some inst =>
      match inst.destroy w with
      | (dres, w1) =>
        let destroyed := match dres with
          | .ok b => b
          | .error _ => false
        if destroyed || force then
          if force then
            (.ok true, { h with plugins := setAssoc h.plugins name { entry with inst := none } }, w1)
          else
            match inst.setActive w1 false with
            | (.ok _, _, w2) =>
              (.ok true, { h with plugins := setAssoc h.plugins name { entry with inst := none } }, w2)
            | (.error e, p1, w2) =>
              (.error e, { h with plugins := setAssoc h.plugins name { entry with inst := some p1 } }, w2)
        else (.ok false, h, w1)
    | none => (.ok true, h, w)
  | none => (.ok true, h, w)

/-- The loop body of `destroyAll`: over the snapshot of names, destroy
each with `force = true`, discarding failures (the loop's catch only
logs). -/
def PluginHandler.destroyAllGo : PluginHandler → List String → World → PluginHandler × World
  | h, [], w => (h, w)
  | h, n :: rest, w =>
    match h.destroy n true w with
    | (_, h1, w1) => PluginHandler.destroyAllGo h1 rest w1

/-- `destroyAll()`: destroy every entry with `force = true`, continuing
past individual failures. -/
def PluginHandler.destroyAll (h : PluginHandler) (w : World) : PluginHandler × World :=
  PluginHandler.destroyAllGo h (h.plugins.map Prod.fst) w

/-! Concrete fixtures used by the witnesses and counterexamples below. -/

/-- A configuration without an `enabled` key. -/
def cfgUndef : Config := { enabled := .undef, extra := "x" }

/-- A configuration with `enabled: false`. -/
def cfgFalse : Config := { enabled := .bool false, extra := "x" }

/-- A configuration with `enabled: true`. -/
def cfgTrue : Config := { enabled := .bool true, extra := "x" }

/-- Controller-scoped handler settings. -/
def settings0 : HandlerSettings := { scope := .controller, ns := "system.host.h0" }

/-- A controller-scoped instance named `p` with injected databases and the
given implementer behavior. -/
def plugin0 (ib : InitBehavior) (db : DestroyBehavior) : PluginBase :=
  { pluginScope := .controller
    pluginNamespace := "system.host.h0.plugins.p"
    isActive := false
    objectsDbSet := true
    statesDbSet := true
    parentIoPackage := none
    initBehavior := ib
    destroyBehavior := db
    initCalls := 0 }

/-- An empty world. -/
def world0 : World := { states := [], objects := [], destroyLog := [] }

/-- A parent io-package without a `common` section. -/
def parent0 : IoPackage := { common := none }

/-- A handler holding the single entry `p` with the given instance behavior
and the `enabled`-less configuration. -/
def handler1 (ib : InitBehavior) (db : DestroyBehavior) : PluginHandler :=
  { settings := settings0
    plugins := [("p", { config := cfgUndef, inst := some (plugin0 ib db) })] }

/-- An empty handler. -/
def handler0 : PluginHandler := { settings := settings0, plugins := [] }

/-- The namespace of the instance currently held for `n`, if any: what one
`destroyAll` step appends to the destroy log when it reaches `n`. -/
def instanceNsOf (h : PluginHandler) (n : String) : Option String :=
  match lookupAssoc h.plugins n with
  | some e =>
    match e.inst with
    | some p => some p.pluginNamespace
    | none => none
  | none => none

/-- A world persisting `enabled = false` for the controller-scoped plugin
`p`. -/
def worldFalse : World :=
  { states := [("system.host.h0.plugins.p.enabled",
      { val := .bool false, ack := true, fromId := "x" })]
    objects := []
    destroyLog := [] }

/-- An adapter-scoped instance named `p` of adapter `testA` instance `0`
with injected databases and the given implementer behavior. -/
def pluginA (ib : InitBehavior) (db : DestroyBehavior) : PluginBase :=
  { pluginScope := .adapter
    pluginNamespace := "system.adapter.testA.0.plugins.p"
    isActive := false
    objectsDbSet := true
    statesDbSet := true
    parentIoPackage := none
    initBehavior := ib
    destroyBehavior := db
    initCalls := 0 }

/-- A parent io-package naming the adapter `testA` on host `h1`. -/
def parentA : IoPackage := { common := some { name := "testA", host := some "h1" } }

/-- A world persisting the host-scoped `enabled = false` for plugin `p` on
host `h1`, with nothing persisted in the plugin's own namespace. -/
def worldHostFalse : World :=
  { states := [("system.host.h1.plugins.p.enabled",
      { val := .bool false, ack := true, fromId := "x" })]
    objects := []
    destroyLog := [] }

/-! Basic lemmas about the association-list registry and world. -/

theorem lookupAssoc_setAssoc {α : Type} (l : List (String × α)) (k m : String) (v : α) :
    lookupAssoc (setAssoc l k v) m = if m = k then some v else lookupAssoc l m := by
  induction l with
  | nil =>
    by_cases hmk : m = k
    · subst hmk; simp [setAssoc, lookupAssoc]
    · have h2 : ¬ (k = m) := fun h => hmk h.symm
      simp [setAssoc, lookupAssoc, hmk, h2]
  | cons hd tl ih =>
    obtain ⟨k', v'⟩ := hd
    by_cases hk : k' = k
    · subst hk
      by_cases hmk : m = k'
      · subst hmk; simp [setAssoc, lookupAssoc]
      · have h2 : ¬ (k' = m) := fun h => hmk h.symm
        simp [setAssoc, lookupAssoc, hmk, h2]
    · by_cases hm : k' = m
      · have h3 : ¬ (m = k) := fun h => hk (hm.trans h)
        simp [setAssoc, lookupAssoc, hk, hm, h3]
      · simp [setAssoc, lookupAssoc, hk, hm, ih]

theorem lookupAssoc_eq_none_iff {α : Type} (l : List (String × α)) (m : String) :
    lookupAssoc l m = none ↔ m ∉ l.map Prod.fst := by
  induction l with
  | nil => simp [lookupAssoc]
  | cons hd tl ih =>
    obtain ⟨k, v⟩ := hd
    by_cases hk : k = m
    · subst hk; simp [lookupAssoc]
    · have h2 : ¬ (m = k) := fun h => hk h.symm
      simp [lookupAssoc, hk, h2, ih]

/-! Evaluation lemmas for the plugin-level lifecycle operations. -/

theorem setActive_ok (p : PluginBase) (w : World) (b : Bool) (hs : p.statesDbSet = true) :
    p.setActive w b = (.ok (), { p with isActive := b },
      { w with states := setAssoc w.states (p.pluginNamespace ++ ".enabled") ⟨.bool b, true, p.pluginNamespace⟩ }) := by
  simp [PluginBase.setActive, PluginBase.setState, hs]

theorem setActive_err (p : PluginBase) (w : World) (b : Bool) (hs : p.statesDbSet = false) :
    p.setActive w b = (.error "States Database not initialized.", { p with isActive := b }, w) := by
  simp [PluginBase.setActive, PluginBase.setState, hs]

theorem readOwnEnabled_ok (p : PluginBase) (w : World) (ho : p.objectsDbSet = true)
    (hs : p.statesDbSet = true) :
    p.readOwnEnabled w = (lookupAssoc w.states (p.pluginNamespace ++ ".enabled"),
      { w with objects := w.objects ++ [p.pluginNamespace] ++ [p.pluginNamespace ++ ".enabled"] }) := by
  simp [PluginBase.readOwnEnabled, PluginBase.extendObject, PluginBase.getState, ho, hs]

theorem readOwnEnabled_states (p : PluginBase) (w : World) :
    (p.readOwnEnabled w).2.states = w.states := by
  unfold PluginBase.readOwnEnabled PluginBase.extendObject PluginBase.getState
  cases ho : p.objectsDbSet <;> cases hs : p.statesDbSet <;> simp

theorem initImpl_false (p : PluginBase) (cfg : Config) (w : World) (hs : p.statesDbSet = true) :
    p.initImpl cfg false w = (.ok (), { p with isActive := false }, cfg,
      { w with states := setAssoc w.states (p.pluginNamespace ++ ".enabled") ⟨.bool false, true, p.pluginNamespace⟩ }) := by
  simp [PluginBase.initImpl, setActive_ok p w false hs]

theorem initImpl_true_ok (p : PluginBase) (cfg : Config) (w : World)
    (hi : p.initBehavior = .ok) (hs : p.statesDbSet = true) :
    p.initImpl cfg true w = (.ok (),
      { p with isActive := true, initCalls := p.initCalls + 1 },
      { cfg with enabled := .bool true },
      { w with states := setAssoc w.states (p.pluginNamespace ++ ".enabled") ⟨.bool true, true, p.pluginNamespace⟩ }) := by
  simp [PluginBase.initImpl, PluginBase.init, PluginBase.setActive, PluginBase.setState, hi, hs]

theorem initImpl_true_throws (p : PluginBase) (cfg : Config) (w : World) (m : String)
    (hi : p.initBehavior = .throws m) (hs : p.statesDbSet = true) :
    p.initImpl cfg true w = (.ok (),
      { p with isActive := false, initCalls := p.initCalls + 1 },
      { cfg with enabled := .bool true },
      { w with states := setAssoc w.states (p.pluginNamespace ++ ".enabled") ⟨.bool false, true, p.pluginNamespace⟩ }) := by
  simp [PluginBase.initImpl, PluginBase.init, PluginBase.setActive, PluginBase.setState, hi, hs]

@[simp] theorem recordParent_pluginScope (p : PluginBase) (c : IoPackage) :
    (p.recordParent c).pluginScope = p.pluginScope := rfl

@[simp] theorem recordParent_pluginNamespace (p : PluginBase) (c : IoPackage) :
    (p.recordParent c).pluginNamespace = p.pluginNamespace := rfl

@[simp] theorem recordParent_isActive (p : PluginBase) (c : IoPackage) :
    (p.recordParent c).isActive = p.isActive := rfl

@[simp] theorem recordParent_objectsDbSet (p : PluginBase) (c : IoPackage) :
    (p.recordParent c).objectsDbSet = p.objectsDbSet := rfl

@[simp] theorem recordParent_statesDbSet (p : PluginBase) (c : IoPackage) :
    (p.recordParent c).statesDbSet = p.statesDbSet := rfl

@[simp] theorem recordParent_initBehavior (p : PluginBase) (c : IoPackage) :
    (p.recordParent c).initBehavior = p.initBehavior := rfl

@[simp] theorem recordParent_initCalls (p : PluginBase) (c : IoPackage) :
    (p.recordParent c).initCalls = p.initCalls := rfl

/-- C3: for every instantiated plugin with a persisted state at
`<namespace>.enabled` holding a concrete falsy value (rule 5a), and for
every configuration (whatever its `enabled` key), `initPlugin` resolves
successfully with `isActive = false` and the implementer's `init` is never
invoked: the persisted concrete value decides alone. -/
theorem claim3_persisted_false_disables (p : PluginBase) (cfg : Config) (parent : IoPackage)
    (w : World) (st : JSState)
    (ho : p.objectsDbSet = true) (hs : p.statesDbSet = true)
    (hlook : lookupAssoc w.states (p.pluginNamespace ++ ".enabled") = some st)
    (hobj : st.val.isObjectType = false) (hund : st.val ≠ .undef)
    (htru : st.val.truthy = false) :
    (p.initPlugin (some cfg) parent w).1 = .ok () ∧
    (p.initPlugin (some cfg) parent w).2.1.isActive = false ∧
    (p.initPlugin (some cfg) parent w).2.1.initCalls = p.initCalls := by
  simp [PluginBase.initPlugin, readOwnEnabled_ok, ho, hs, hlook, concreteValOf, hobj,
    bne_iff_ne, hund, htru, initImpl_false]

/-- C4: for every adapter-scoped plugin with no concrete persisted own
`enabled` value whose parent configuration names a (truthy) host, the
cascade reads the host-scoped `enabled` state at the namespace derived by
`hostNamespaceOf`; when that holds a concrete falsy value, `initPlugin`
resolves the plugin inactive without invoking `init`, for every
configuration (rule 5b wins over 5c). -/
theorem claim4_host_false_overrides (p : PluginBase) (cfg : Config) (parent : IoPackage)
    (common : IoCommon) (host : String) (w : World) (st : JSState)
    (hsc : p.pluginScope = .adapter)
    (ho : p.objectsDbSet = true) (hs : p.statesDbSet = true)
    (hcom : parent.common = some common) (hh : common.host = some host) (hne : host ≠ "")
    (hown : concreteValOf (lookupAssoc w.states (p.pluginNamespace ++ ".enabled")) = none)
    (hhost : lookupAssoc w.states
      (hostNamespaceOf p.pluginNamespace common.name host ++ ".enabled") = some st)
    (hobj : st.val.isObjectType = false) (hund : st.val ≠ .undef)
    (htru : st.val.truthy = false) :
    (p.initPlugin (some cfg) parent w).1 = .ok () ∧
    (p.initPlugin (some cfg) parent w).2.1.isActive = false ∧
    (p.initPlugin (some cfg) parent w).2.1.initCalls = p.initCalls := by
  simp [PluginBase.initPlugin, readOwnEnabled_ok, ho, hs, hown,
    PluginBase.resolveWithoutOwn, hsc, hcom, hh, hne,
    PluginBase.readHostEnabled, PluginBase.getState, hhost]
  simp [concreteValOf, hobj, bne_iff_ne, hund, htru, initImpl_false, hs]

/-- C5: for every instantiated plugin with no concrete persisted own
`enabled` value and no concrete host-scoped value (whatever the scope and
parent), and whose configuration has no `enabled` key, the cascade
defaults to enabled: `initPlugin` invokes the implementer's `init` exactly
once and, when `init` succeeds, resolves with `isActive = true` and
persists `enabled = true` (`val: true, ack: true`). -/
theorem claim5_default_enabled (p : PluginBase) (cfg : Config) (parent : IoPackage) (w : World)
    (ho : p.objectsDbSet = true) (hs : p.statesDbSet = true)
    (hib : p.initBehavior = .ok)
    (hcfg : cfg.enabled = .undef)
    (hown : concreteValOf (lookupAssoc w.states (p.pluginNamespace ++ ".enabled")) = none)
    (hhost : ∀ (common : IoCommon) (host : String), parent.common = some common →
      common.host = some host →
      concreteValOf (lookupAssoc w.states
        (hostNamespaceOf p.pluginNamespace common.name host ++ ".enabled")) = none) :
    (p.initPlugin (some cfg) parent w).1 = .ok () ∧
    (p.initPlugin (some cfg) parent w).2.1.isActive = true ∧
    (p.initPlugin (some cfg) parent w).2.1.initCalls = p.initCalls + 1 ∧
    lookupAssoc (p.initPlugin (some cfg) parent w).2.2.2.states (p.pluginNamespace ++ ".enabled") =
      some { val := .bool true, ack := true, fromId := p.pluginNamespace } := by
  cases hps : p.pluginScope with
  | adapter =>
    cases hc : parent.common with
    | none =>
      simp [PluginBase.initPlugin, readOwnEnabled_ok, ho, hs, hown,
        PluginBase.resolveWithoutOwn, hps, hc,
        PluginBase.resolveFromConfig, hcfg, initImpl_true_ok, hib, lookupAssoc_setAssoc]
    | some common =>
      cases hhh : common.host with
      | none =>
        simp [PluginBase.initPlugin, readOwnEnabled_ok, ho, hs, hown,
          PluginBase.resolveWithoutOwn, hps, hc, hhh,
          PluginBase.resolveFromConfig, hcfg, initImpl_true_ok, hib, lookupAssoc_setAssoc]
      | some host =>
        by_cases hhe : host = ""
        · simp [PluginBase.initPlugin, readOwnEnabled_ok, ho, hs, hown,
            PluginBase.resolveWithoutOwn, hps, hc, hhh, hhe,
            PluginBase.resolveFromConfig, hcfg, initImpl_true_ok, hib, lookupAssoc_setAssoc]
        · have hhn := hhost common host hc hhh
          simp [PluginBase.initPlugin, readOwnEnabled_ok, ho, hs, hown,
            PluginBase.resolveWithoutOwn, hps, hc, hhh, hhe,
            PluginBase.readHostEnabled, PluginBase.getState, hhn,
            PluginBase.resolveFromConfig, hcfg, initImpl_true_ok, hib, lookupAssoc_setAssoc]
  | controller =>
    simp [PluginBase.initPlugin, readOwnEnabled_ok, ho, hs, hown,
      PluginBase.resolveWithoutOwn, hps,
      PluginBase.resolveFromConfig, hcfg, initImpl_true_ok, hib, lookupAssoc_setAssoc]

theorem initImpl_throws_spec (p : PluginBase) (cfg : Config) (act : Bool) (w : World)
    (m : String) (hi : p.initBehavior = .throws m) (hs : p.statesDbSet = true) :
    (p.initImpl cfg act w).1 = .ok () ∧
    (p.initImpl cfg act w).2.1.isActive = false ∧
    (p.initImpl cfg act w).2.1.pluginNamespace = p.pluginNamespace ∧
    (p.initImpl cfg act w).2.2.2.states =
      setAssoc w.states (p.pluginNamespace ++ ".enabled")
        { val := .bool false, ack := true, fromId := p.pluginNamespace } := by
  cases act
  · simp [initImpl_false p cfg w hs]
  · simp [initImpl_true_throws p cfg w m hi hs]

/-- When the implementer's `init` throws and the states DB is injected,
`PluginBase.initPlugin` always resolves successfully: the thrown failure is
caught inside `#initialize`, answered with a successful `setActive(false)`,
leaving the plugin inactive with `enabled = false` persisted. -/
theorem initPlugin_init_throws (p : PluginBase) (cfg : Config) (parent : IoPackage) (w : World)
    (m : String) (hi : p.initBehavior = .throws m)
    (ho : p.objectsDbSet = true) (hs : p.statesDbSet = true) :
    (p.initPlugin (some cfg) parent w).1 = .ok () ∧
    (p.initPlugin (some cfg) parent w).2.1.isActive = false ∧
    (p.initPlugin (some cfg) parent w).2.1.pluginNamespace = p.pluginNamespace ∧
    (p.initPlugin (some cfg) parent w).2.2.2.states =
      setAssoc w.states (p.pluginNamespace ++ ".enabled")
        { val := .bool false, ack := true, fromId := p.pluginNamespace } := by
  cases hcv : concreteValOf (lookupAssoc w.states (p.pluginNamespace ++ ".enabled")) with
  | some v =>
    cases htv : v.truthy
    · simp [PluginBase.initPlugin, readOwnEnabled_ok, ho, hs, hcv, htv, initImpl_false]
    · simp [PluginBase.initPlugin, readOwnEnabled_ok, ho, hs, hcv, htv,
        initImpl_true_throws, hi]
  | none =>
    cases hps : p.pluginScope with
    | controller =>
      cases hact : (if cfg.enabled = JSVal.undef then true else cfg.enabled.truthy)
      · simp [PluginBase.initPlugin, readOwnEnabled_ok, ho, hs, hcv, hps,
          PluginBase.resolveWithoutOwn, PluginBase.resolveFromConfig, hact, initImpl_false]
      · simp [PluginBase.initPlugin, readOwnEnabled_ok, ho, hs, hcv, hps,
          PluginBase.resolveWithoutOwn, PluginBase.resolveFromConfig, hact,
          initImpl_true_throws, hi]
    | adapter =>
      cases hc : parent.common with
      | none =>
        cases hact : (if cfg.enabled = JSVal.undef then true else cfg.enabled.truthy)
        · simp [PluginBase.initPlugin, readOwnEnabled_ok, ho, hs, hcv, hps, hc,
            PluginBase.resolveWithoutOwn, PluginBase.resolveFromConfig, hact, initImpl_false]
        · simp [PluginBase.initPlugin, readOwnEnabled_ok, ho, hs, hcv, hps, hc,
            PluginBase.resolveWithoutOwn, PluginBase.resolveFromConfig, hact,
            initImpl_true_throws, hi]
      | some common =>
        cases hhh : common.host with
        | none =>
          cases hact : (if cfg.enabled = JSVal.undef then true else cfg.enabled.truthy)
          · simp [PluginBase.initPlugin, readOwnEnabled_ok, ho, hs, hcv, hps, hc, hhh,
              PluginBase.resolveWithoutOwn, PluginBase.resolveFromConfig, hact, initImpl_false]
          · simp [PluginBase.initPlugin, readOwnEnabled_ok, ho, hs, hcv, hps, hc, hhh,
              PluginBase.resolveWithoutOwn, PluginBase.resolveFromConfig, hact,
              initImpl_true_throws, hi]
        | some host =>
          by_cases hhe : host = ""
          · cases hact : (if cfg.enabled = JSVal.undef then true else cfg.enabled.truthy)
            · simp [PluginBase.initPlugin, readOwnEnabled_ok, ho, hs, hcv, hps, hc, hhh, hhe,
                PluginBase.resolveWithoutOwn, PluginBase.resolveFromConfig, hact, initImpl_false]
            · simp [PluginBase.initPlugin, readOwnEnabled_ok, ho, hs, hcv, hps, hc, hhh, hhe,
                PluginBase.resolveWithoutOwn, PluginBase.resolveFromConfig, hact,
                initImpl_true_throws, hi]
          · cases hhv : concreteValOf (lookupAssoc w.states
                (hostNamespaceOf p.pluginNamespace common.name host ++ ".enabled")) with
            | some v =>
              cases htv : v.truthy
              · simp [PluginBase.initPlugin, readOwnEnabled_ok, ho, hs, hcv, hps, hc, hhh, hhe,
                  PluginBase.resolveWithoutOwn, PluginBase.readHostEnabled, PluginBase.getState,
                  hhv, htv, initImpl_false]
              · simp [PluginBase.initPlugin, readOwnEnabled_ok, ho, hs, hcv, hps, hc, hhh, hhe,
                  PluginBase.resolveWithoutOwn, PluginBase.readHostEnabled, PluginBase.getState,
                  hhv, htv, initImpl_true_throws, hi]
            | none =>
              cases hact : (if cfg.enabled = JSVal.undef then true else cfg.enabled.truthy)
              · simp [PluginBase.initPlugin, readOwnEnabled_ok, ho, hs, hcv, hps, hc, hhh, hhe,
                  PluginBase.resolveWithoutOwn, PluginBase.readHostEnabled, PluginBase.getState,
                  hhv, PluginBase.resolveFromConfig, hact, initImpl_false]
              · simp [PluginBase.initPlugin, readOwnEnabled_ok, ho, hs, hcv, hps, hc, hhh, hhe,
                  PluginBase.resolveWithoutOwn, PluginBase.readHostEnabled, PluginBase.getState,
                  hhv, PluginBase.resolveFromConfig, hact, initImpl_true_throws, hi]

/-- C1 counterexample: a plugin whose enable-resolution is truthy (default
route) and whose `init` throws, with both databases injected. The claim
asserts the failure propagates to the Registry's `initPlugin` and that
`isPluginInstantiated` is false afterwards; in fact the Registry call
resolves successfully and the instance is retained. -/
theorem claim1_counterexample :
    (PluginHandler.initPlugin (handler1 (.throws "boom") (.ret true)) "p" parent0 world0).1 =
      .ok () ∧
    PluginHandler.isPluginInstantiated
      (PluginHandler.initPlugin (handler1 (.throws "boom") (.ret true)) "p" parent0 world0).2.1
      "p" = true := by
  exact ⟨rfl, rfl⟩

/-- C1 (amended): for every instantiated plugin whose implementer `init`
fails while the deactivation write can succeed (states DB injected), the
plugin's own `#initialize` catches the failure: the plugin is marked
inactive with `enabled = false` persisted, nothing propagates to the
Registry's `initPlugin` (it resolves successfully), its containment path
does not run, and the instance is retained, so `isPluginInstantiated`
stays true while the entry remains. -/
theorem claim1_init_failure_contained (h : PluginHandler) (name : String) (entry : PluginEntry)
    (inst : PluginBase) (parent : IoPackage) (w : World) (m : String)
    (hlook : lookupAssoc h.plugins name = some entry) (hinst : entry.inst = some inst)
    (hib : inst.initBehavior = .throws m)
    (ho : inst.objectsDbSet = true) (hss : inst.statesDbSet = true) :
    (h.initPlugin name parent w).1 = .ok () ∧
    (h.initPlugin name parent w).2.1.isPluginInstantiated name = true ∧
    (h.initPlugin name parent w).2.1.isPluginActive name = false ∧
    lookupAssoc (h.initPlugin name parent w).2.2.states (inst.pluginNamespace ++ ".enabled") =
      some { val := .bool false, ack := true, fromId := inst.pluginNamespace } := by
  obtain ⟨h1, h2, h3, h4⟩ := initPlugin_init_throws inst entry.config parent w m hib ho hss
  rcases hX : inst.initPlugin (some entry.config) parent w with ⟨r, p1, cfg1, w1⟩
  rw [hX] at h1 h2 h3 h4
  simp only at h1 h2 h3 h4
  subst h1
  simp [PluginHandler.initPlugin, hlook, hinst, hX, PluginHandler.isPluginInstantiated,
    PluginHandler.isPluginActive, lookupAssoc_setAssoc, h2, h4]

/-- C2 counterexample: on a resolution failure (`require.resolve` throws)
for a name never registered, `instantiatePlugin` stores no entry at all:
`pluginExists` is false and `getPluginConfig` is null afterwards, while the
claim asserts the entry exists and retains the configuration. -/
theorem claim2_counterexample :
    PluginHandler.pluginExists
      (PluginHandler.instantiatePlugin handler0 "x" cfgUndef
        { resolved := none, requireOk := true, constructed := none }) "x" = false ∧
    PluginHandler.getPluginConfig
      (PluginHandler.instantiatePlugin handler0 "x" cfgUndef
        { resolved := none, requireOk := true, constructed := none }) "x" = none := by
  decide

/-- C2 (amended): with no live instance for `name`, `instantiatePlugin`
never throws; on a resolution failure (`require.resolve` throws or yields
a falsy path) or a `require` failure the registry is left completely
unchanged — no entry is created; only once resolution and require succeed
is the entry stored with the given configuration, the instance being
present exactly when the constructor succeeds (and absent when it
throws). -/
theorem claim2_entry_on_failure (h : PluginHandler) (name : String) (cfg : Config)
    (loader : LoadOutcome) (hni : h.isPluginInstantiated name = false) :
    ((loader.resolved = none ∨ loader.resolved = some "" ∨ loader.requireOk = false) →
      h.instantiatePlugin name cfg loader = h) ∧
    (∀ path, loader.resolved = some path → path ≠ "" → loader.requireOk = true →
      (h.instantiatePlugin name cfg loader).pluginExists name = true ∧
      (h.instantiatePlugin name cfg loader).getPluginConfig name = some cfg ∧
      (h.instantiatePlugin name cfg loader).getPluginInstance name =
        loader.constructed.map (h.freshInstance name)) := by
  constructor
  · rintro (hr | hr | hr)
    · simp [PluginHandler.instantiatePlugin, hni, hr]
    · simp [PluginHandler.instantiatePlugin, hni, hr]
    · cases hres : loader.resolved with
      | none => simp [PluginHandler.instantiatePlugin, hni, hr, hres]
      | some path => simp [PluginHandler.instantiatePlugin, hni, hr, hres]
  · intro path hpath hne hreq
    have hbase : ∀ (e : PluginEntry),
        (PluginHandler.mk h.settings (setAssoc h.plugins name e)).pluginExists name = true ∧
        (PluginHandler.mk h.settings (setAssoc h.plugins name e)).getPluginConfig name =
          some e.config ∧
        (PluginHandler.mk h.settings (setAssoc h.plugins name e)).getPluginInstance name =
          e.inst := by
      intro e
      simp [PluginHandler.pluginExists, PluginHandler.getPluginConfig,
        PluginHandler.getPluginInstance, lookupAssoc_setAssoc]
    cases hcon : loader.constructed with
    | some beh =>
      obtain ⟨e1, e2, e3⟩ := hbase { config := cfg, inst := some (h.freshInstance name beh) }
      simp [PluginHandler.instantiatePlugin, hni, hpath, hne, hreq, hcon, e1, e2, e3]
    | none =>
      obtain ⟨e1, e2, e3⟩ := hbase { config := cfg, inst := none }
      simp [PluginHandler.instantiatePlugin, hni, hpath, hne, hreq, hcon, e1, e2, e3]

/-- C6: for every name holding an instance whose implementer `destroy()`
resolves `false` or throws (a throw is caught and treated as `false`), an
unforced `destroy` leaves the registry unchanged (the instance stays
present) and reports failure; a subsequent forced `destroy` removes the
instance (the entry itself remaining) and reports success; and `destroy`
on any name without an instance reports success with no action at all. -/
theorem claim6_destroy_false_retries (h : PluginHandler) (name : String) (entry : PluginEntry)
    (inst : PluginBase) (w : World)
    (hlook : lookupAssoc h.plugins name = some entry) (hinst : entry.inst = some inst)
    (hfail : inst.destroyBehavior = .ret false ∨ ∃ m, inst.destroyBehavior = .throws m) :
    (h.destroy name false w).1 = .ok false ∧
    (h.destroy name false w).2.1 = h ∧
    (h.destroy name false w).2.1.isPluginInstantiated name = true ∧
    ((h.destroy name false w).2.1.destroy name true (h.destroy name false w).2.2).1 = .ok true ∧
    ((h.destroy name false w).2.1.destroy name true
        (h.destroy name false w).2.2).2.1.isPluginInstantiated name = false ∧
    ((h.destroy name false w).2.1.destroy name true
        (h.destroy name false w).2.2).2.1.pluginExists name = true ∧
    (∀ (h2 : PluginHandler) (n2 : String) (f2 : Bool) (w2 : World),
      h2.isPluginInstantiated n2 = false → h2.destroy n2 f2 w2 = (.ok true, h2, w2)) := by
  have hd1 : h.destroy name false w = (.ok false, h, (inst.destroy w).2) := by
    rcases hfail with hf | ⟨m, hf⟩ <;>
      simp [PluginHandler.destroy, hlook, hinst, PluginBase.destroy, hf]
  have hd2 : ∀ (w2 : World), h.destroy name true w2 =
      (.ok true, { h with plugins := setAssoc h.plugins name { entry with inst := none } },
        (inst.destroy w2).2) := by
    intro w2
    rcases hfail with hf | ⟨m, hf⟩ <;>
      simp [PluginHandler.destroy, hlook, hinst, PluginBase.destroy, hf]
  have hnone : ∀ (h2 : PluginHandler) (n2 : String) (f2 : Bool) (w2 : World),
      h2.isPluginInstantiated n2 = false → h2.destroy n2 f2 w2 = (.ok true, h2, w2) := by
    intro h2 n2 f2 w2 hno
    unfold PluginHandler.isPluginInstantiated at hno
    unfold PluginHandler.destroy
    cases hl2 : lookupAssoc h2.plugins n2 with
    | none => simp [hl2]
    | some e2 =>
      rw [hl2] at hno
      simp only at hno
      cases hi2 : e2.inst with
      | none => simp [hl2, hi2]
      | some q => rw [hi2] at hno; simp at hno
  rw [hd1]
  refine ⟨rfl, rfl, ?_, ?_, ?_, ?_, hnone⟩
  · simp [PluginHandler.isPluginInstantiated, hlook, hinst]
  · rw [hd2]
  · rw [hd2]
    simp [PluginHandler.isPluginInstantiated, lookupAssoc_setAssoc]
  · rw [hd2]
    simp [PluginHandler.pluginExists, lookupAssoc_setAssoc]

/-- C8: the Registry's `initPlugin` rejects — with the explicit error
`Please instantiate plugin first!` — exactly when no instance currently
exists for the name; with an instance present the call always resolves,
every plugin-level failure being contained inside it. -/
theorem claim8_initPlugin_throw_iff_no_instance (h : PluginHandler) (name : String)
    (parent : IoPackage) (w : World) :
    (h.initPlugin name parent w).1 =
      (if h.isPluginInstantiated name then Except.ok ()
       else Except.error "Please instantiate plugin first!") := by
  unfold PluginHandler.initPlugin PluginHandler.isPluginInstantiated
  cases hlook : lookupAssoc h.plugins name with
  | none => simp [hlook]
  | some entry =>
    cases hinst : entry.inst with
    | none => simp [hlook, hinst]
    | some inst =>
      rcases hX : inst.initPlugin (some entry.config) parent w with ⟨r, p1, cfg1, w1⟩
      cases r <;> simp [hlook, hinst, hX]

/-- C9: a second `instantiatePlugin` for a name with a live instance is a
complete no-op: the registry (entry, configuration and instance) is
returned unchanged and the result does not depend on the loading
environment at all — no resolution, no require, no construction. -/
theorem claim9_duplicate_noop (h : PluginHandler) (name : String) (cfg : Config)
    (loader : LoadOutcome) (hli : h.isPluginInstantiated name = true) :
    h.instantiatePlugin name cfg loader = h := by
  simp [PluginHandler.instantiatePlugin, hli]

theorem clearInst_eq_self (e : PluginEntry) (hi : e.inst = none) :
    ({ config := e.config, inst := none } : PluginEntry) = e := by
  cases e
  simp only at hi
  simp [hi]

theorem pluginDestroy_world (p : PluginBase) (w : World) :
    (p.destroy w).2 = { w with destroyLog := w.destroyLog ++ [p.pluginNamespace] } := by
  unfold PluginBase.destroy
  cases p.destroyBehavior <;> simp

theorem destroy_force_lookup (h : PluginHandler) (n m : String) (w : World) :
    lookupAssoc (h.destroy n true w).2.1.plugins m =
      if m = n then (lookupAssoc h.plugins m).map (fun e => { e with inst := none })
      else lookupAssoc h.plugins m := by
  unfold PluginHandler.destroy
  cases hl : lookupAssoc h.plugins n with
  | none =>
    by_cases hmn : m = n
    · subst hmn; simp [hl]
    · simp [hl, hmn]
  | some e =>
    cases hi : e.inst with
    | none =>
      by_cases hmn : m = n
      · subst hmn; simp [hl, hi, clearInst_eq_self e hi]
      · simp [hl, hi, hmn]
    | some p =>
      rcases hd : p.destroy w with ⟨dres, w1⟩
      by_cases hmn : m = n
      · subst hmn; simp [hl, hi, hd, lookupAssoc_setAssoc]
      · simp [hl, hi, hd, hmn, lookupAssoc_setAssoc]

theorem destroy_force_world (h : PluginHandler) (n : String) (w : World) :
    (h.destroy n true w).2.2 =
      { w with destroyLog := w.destroyLog ++ (instanceNsOf h n).toList } := by
  unfold PluginHandler.destroy instanceNsOf
  cases hl : lookupAssoc h.plugins n with
  | none => simp [hl]
  | some e =>
    cases hi : e.inst with
    | none => simp [hl, hi]
    | some p =>
      rcases hd : p.destroy w with ⟨dres, w1⟩
      have hw1 : w1 = { w with destroyLog := w.destroyLog ++ [p.pluginNamespace] } := by
        rw [← pluginDestroy_world p w, hd]
      simp [hl, hi, hd, hw1]

theorem destroyAllGo_lookup (names : List String) (h : PluginHandler) (w : World) (m : String) :
    lookupAssoc (PluginHandler.destroyAllGo h names w).1.plugins m =
      if m ∈ names then (lookupAssoc h.plugins m).map (fun e => { e with inst := none })
      else lookupAssoc h.plugins m := by
  induction names generalizing h w with
  | nil => simp [PluginHandler.destroyAllGo]
  | cons n rest ih =>
    rcases hd : h.destroy n true w with ⟨r, h1, w1⟩
    have hgo : PluginHandler.destroyAllGo h (n :: rest) w =
        PluginHandler.destroyAllGo h1 rest w1 := by
      simp [PluginHandler.destroyAllGo, hd]
    have hl1 : ∀ m', lookupAssoc h1.plugins m' =
        if m' = n then (lookupAssoc h.plugins m').map (fun e => { e with inst := none })
        else lookupAssoc h.plugins m' := by
      intro m'
      rw [← destroy_force_lookup h n m' w, hd]
    rw [hgo, ih]
    by_cases hmr : m ∈ rest
    · by_cases hmn : m = n
      · subst hmn
        simp only [hmr, if_pos, hl1 m, if_pos rfl, List.mem_cons, true_or]
        cases lookupAssoc h.plugins m <;> simp
      · simp [hmr, hmn, hl1 m, List.mem_cons]
    · by_cases hmn : m = n
      · subst hmn
        simp [hmr, hl1 m, List.mem_cons]
      · simp [hmr, hmn, hl1 m, List.mem_cons]

theorem destroyAllGo_world (names : List String) (h : PluginHandler) (w : World)
    (hnd : names.Nodup) :
    (PluginHandler.destroyAllGo h names w).2 =
      { w with destroyLog := w.destroyLog ++ names.filterMap (instanceNsOf h) } := by
  induction names generalizing h w with
  | nil => simp [PluginHandler.destroyAllGo]
  | cons n rest ih =>
    rcases hd : h.destroy n true w with ⟨r, h1, w1⟩
    have hgo : PluginHandler.destroyAllGo h (n :: rest) w =
        PluginHandler.destroyAllGo h1 rest w1 := by
      simp [PluginHandler.destroyAllGo, hd]
    have hnotin : n ∉ rest := (List.nodup_cons.mp hnd).1
    have hw1 : w1 = { w with destroyLog := w.destroyLog ++ (instanceNsOf h n).toList } := by
      rw [← destroy_force_world h n w, hd]
    have hins : ∀ m', m' ∈ rest → instanceNsOf h1 m' = instanceNsOf h m' := by
      intro m' hm'
      have hne : ¬ (m' = n) := fun hc => hnotin (hc ▸ hm')
      unfold instanceNsOf
      have hx := destroy_force_lookup h n m' w
      rw [hd] at hx
      simp only at hx
      rw [hx, if_neg hne]
    rw [hgo, ih h1 w1 (List.nodup_cons.mp hnd).2, hw1]
    have hfm : rest.filterMap (instanceNsOf h1) = rest.filterMap (instanceNsOf h) :=
      List.filterMap_congr hins
    cases hn1 : instanceNsOf h n <;>
      simp [hfm, List.filterMap_cons, hn1]

/-- C7: `destroyAll` forcibly destroys every entry exactly once in entry
order: the implementer `destroy()` of each instance-holding entry is
invoked exactly once, in registry order (the destroy log), execution
continues past every individual failure (any `destroyBehavior`, throwing
included), and afterwards every entry still exists with its configuration
but holds no instance. -/
theorem claim7_destroyAll_clears_all (h : PluginHandler) (w : World)
    (hnd : (h.plugins.map Prod.fst).Nodup) :
    (∀ n, (h.destroyAll w).1.getPluginInstance n = none) ∧
    (∀ n, (h.destroyAll w).1.getPluginConfig n = h.getPluginConfig n) ∧
    (∀ n, (h.destroyAll w).1.pluginExists n = h.pluginExists n) ∧
    (h.destroyAll w).2 =
      { w with destroyLog :=
          w.destroyLog ++ (h.plugins.map Prod.fst).filterMap (instanceNsOf h) } := by
  have hlk : ∀ n, lookupAssoc (h.destroyAll w).1.plugins n =
      if n ∈ h.plugins.map Prod.fst
      then (lookupAssoc h.plugins n).map (fun e => { e with inst := none })
      else lookupAssoc h.plugins n := by
    intro n
    exact destroyAllGo_lookup (h.plugins.map Prod.fst) h w n
  refine ⟨?_, ?_, ?_, destroyAllGo_world (h.plugins.map Prod.fst) h w hnd⟩
  · intro n
    unfold PluginHandler.getPluginInstance
    rw [hlk n]
    by_cases hmem : n ∈ h.plugins.map Prod.fst
    · simp only [hmem, if_pos]
      cases lookupAssoc h.plugins n <;> simp
    · have : lookupAssoc h.plugins n = none := (lookupAssoc_eq_none_iff _ _).mpr hmem
      simp [hmem, this]
  · intro n
    unfold PluginHandler.getPluginConfig
    rw [hlk n]
    by_cases hmem : n ∈ h.plugins.map Prod.fst
    · simp only [hmem, if_pos]
      cases lookupAssoc h.plugins n <;> simp
    · simp [hmem]
  · intro n
    unfold PluginHandler.pluginExists
    rw [hlk n]
    by_cases hmem : n ∈ h.plugins.map Prod.fst
    · simp only [hmem, if_pos]
      cases lookupAssoc h.plugins n <;> simp
    · simp [hmem]

theorem pluginExists_setAssoc (h : PluginHandler) (k n : String) (e : PluginEntry)
    (hex : h.pluginExists n = true) :
    PluginHandler.pluginExists { h with plugins := setAssoc h.plugins k e } n = true := by
  unfold PluginHandler.pluginExists at hex ⊢
  simp only [lookupAssoc_setAssoc]
  by_cases hnk : n = k <;> simp_all

theorem instantiatePlugin_keeps (h : PluginHandler) (n n2 : String) (cfg : Config)
    (loader : LoadOutcome) (hex : h.pluginExists n = true) :
    (h.instantiatePlugin n2 cfg loader).pluginExists n = true := by
  unfold PluginHandler.instantiatePlugin
  by_cases hii : h.isPluginInstantiated n2 = true
  · simp [hii, hex]
  · simp only [hii, Bool.false_eq_true, if_false]
    cases hres : loader.resolved with
    | none => simpa using hex
    | some path =>
      by_cases hp : path = ""
      · simp [hii, hp, hex]
      · by_cases hrq : loader.requireOk = true
        · cases hcon : loader.constructed with
          | some beh =>
            simp only [hp, hrq, hcon, if_neg, Bool.not_true, Bool.false_eq_true, if_false]
            exact pluginExists_setAssoc h n2 n _ hex
          | none =>
            simp only [hp, hrq, hcon, if_neg, Bool.not_true, Bool.false_eq_true, if_false]
            exact pluginExists_setAssoc h n2 n _ hex
        · simp only [Bool.not_eq_true] at hrq
          simp [hp, hrq, hex]

theorem setDatabaseForPlugin_keeps (h : PluginHandler) (n n2 : String)
    (hex : h.pluginExists n = true) :
    (h.setDatabaseForPlugin n2).pluginExists n = true := by
  unfold PluginHandler.setDatabaseForPlugin
  cases hl : lookupAssoc h.plugins n2 with
  | none => simp only [hl]; exact hex
  | some e =>
    simp only [hl]
    cases hi : e.inst with
    | none => simp only [hi]; exact hex
    | some q => simp only [hi]; exact pluginExists_setAssoc h n2 n _ hex

theorem setDatabaseForPlugins_keeps (h : PluginHandler) (n : String)
    (hex : h.pluginExists n = true) :
    h.setDatabaseForPlugins.pluginExists n = true := by
  unfold PluginHandler.setDatabaseForPlugins
  generalize h.plugins.map Prod.fst = names
  induction names generalizing h with
  | nil => simpa using hex
  | cons m rest ih =>
    simp only [List.foldl_cons]
    exact ih _ (setDatabaseForPlugin_keeps h n m hex)

theorem initPlugin_keeps (h : PluginHandler) (n n2 : String) (parent : IoPackage) (w : World)
    (hex : h.pluginExists n = true) :
    (h.initPlugin n2 parent w).2.1.pluginExists n = true := by
  unfold PluginHandler.initPlugin
  cases hl : lookupAssoc h.plugins n2 with
  | none => simp only [hl]; exact hex
  | some e =>
    simp only [hl]
    cases hi : e.inst with
    | none => simp only [hi]; exact hex
    | some q =>
      simp only [hi]
      rcases hX : q.initPlugin (some e.config) parent w with ⟨r, p1, cfg1, w1⟩
      cases r <;> simp only [hX] <;> exact pluginExists_setAssoc h n2 n _ hex

theorem destroy_keeps (h : PluginHandler) (n n2 : String) (force : Bool) (w : World)
    (hex : h.pluginExists n = true) :
    (h.destroy n2 force w).2.1.pluginExists n = true := by
  unfold PluginHandler.destroy
  cases hl : lookupAssoc h.plugins n2 with
  | none => simp only [hl]; exact hex
  | some e =>
    simp only [hl]
    cases hi : e.inst with
    | none => simp only [hi]; exact hex
    | some q =>
      simp only [hi]
      rcases hd : q.destroy w with ⟨dres, w1⟩
      simp only [hd]
      split
      · split
        · exact pluginExists_setAssoc h n2 n _ hex
        · split
          · exact pluginExists_setAssoc h n2 n _ hex
          · exact pluginExists_setAssoc h n2 n _ hex
      · exact hex

theorem destroyAll_keeps (h : PluginHandler) (n : String) (w : World)
    (hex : h.pluginExists n = true) :
    (h.destroyAll w).1.pluginExists n = true := by
  unfold PluginHandler.pluginExists at hex ⊢
  unfold PluginHandler.destroyAll
  rw [destroyAllGo_lookup]
  by_cases hmem : n ∈ h.plugins.map Prod.fst
  · simp only [hmem, if_pos]
    cases hln : lookupAssoc h.plugins n with
    | none => rw [hln] at hex; simp at hex
    | some e => simp
  · simpa [hmem] using hex

theorem initPluginsGo_keeps (parent : IoPackage) (names : List String) :
    ∀ (h : PluginHandler) (w : World) (n : String), h.pluginExists n = true →
      (PluginHandler.initPluginsGo parent h names w).2.1.pluginExists n = true := by
  induction names with
  | nil =>
    intro h w n hex
    simpa [PluginHandler.initPluginsGo] using hex
  | cons m rest ih =>
    intro h w n hex
    unfold PluginHandler.initPluginsGo
    by_cases hii : h.isPluginInstantiated m = true
    · simp only [hii, if_pos]
      rcases hX : h.initPlugin m parent w with ⟨r, h1, w1⟩
      have h1ex : h1.pluginExists n = true := by
        have hk := initPlugin_keeps h n m parent w hex
        rw [hX] at hk
        simpa using hk
      cases r with
      | ok a => exact ih h1 w1 n h1ex
      | error e => simpa using h1ex
    · simp only [hii, Bool.false_eq_true, if_false]
      exact ih h w n hex

theorem initPlugins_keeps (h : PluginHandler) (n : String) (parent : IoPackage) (w : World)
    (hex : h.pluginExists n = true) :
    (h.initPlugins parent w).2.1.pluginExists n = true :=
  initPluginsGo_keeps parent (h.plugins.map Prod.fst) h w n hex

theorem addPlugins_keeps (h : PluginHandler) (n : String) (configs : List (String × Config))
    (loader : String → LoadOutcome) (hex : h.pluginExists n = true) :
    (h.addPlugins configs loader).pluginExists n = true := by
  unfold PluginHandler.addPlugins
  induction configs generalizing h with
  | nil => simpa using hex
  | cons c rest ih =>
    simp only [List.foldl_cons]
    exact ih _ (instantiatePlugin_keeps h n c.1 c.2 (loader c.1) hex)

/-- C10: for every registry state the query hierarchy holds
(`isPluginActive → isPluginInstantiated → pluginExists`); the five query
operations are total lookups returning their false/null sentinel for
unknown names; and no lifecycle operation ever removes a registry entry —
only an instance — so `pluginExists` stays true across `instantiatePlugin`,
`addPlugins`, `setDatabaseForPlugin(s)`, `initPlugin(s)`, `destroy` and
`destroyAll`. -/
theorem claim10_query_invariants (h : PluginHandler) (n : String) :
    (h.isPluginActive n = true → h.isPluginInstantiated n = true) ∧
    (h.isPluginInstantiated n = true → h.pluginExists n = true) ∧
    (h.pluginExists n = false →
      h.getPluginInstance n = none ∧ h.getPluginConfig n = none ∧
      h.isPluginInstantiated n = false ∧ h.isPluginActive n = false) ∧
    (∀ (n2 : String) (cfg : Config) (loader : LoadOutcome), h.pluginExists n = true →
      (h.instantiatePlugin n2 cfg loader).pluginExists n = true) ∧
    (∀ (configs : List (String × Config)) (loader : String → LoadOutcome),
      h.pluginExists n = true → (h.addPlugins configs loader).pluginExists n = true) ∧
    (∀ (n2 : String), h.pluginExists n = true →
      (h.setDatabaseForPlugin n2).pluginExists n = true) ∧
    (h.pluginExists n = true → h.setDatabaseForPlugins.pluginExists n = true) ∧
    (∀ (n2 : String) (parent : IoPackage) (w : World), h.pluginExists n = true →
      (h.initPlugin n2 parent w).2.1.pluginExists n = true) ∧
    (∀ (parent : IoPackage) (w : World), h.pluginExists n = true →
      (h.initPlugins parent w).2.1.pluginExists n = true) ∧
    (∀ (n2 : String) (force : Bool) (w : World), h.pluginExists n = true →
      (h.destroy n2 force w).2.1.pluginExists n = true) ∧
    (∀ (w : World), h.pluginExists n = true → (h.destroyAll w).1.pluginExists n = true) := by
  refine ⟨?_, ?_, ?_,
    fun n2 cfg loader => instantiatePlugin_keeps h n n2 cfg loader,
    fun configs loader => addPlugins_keeps h n configs loader,
    fun n2 => setDatabaseForPlugin_keeps h n n2,
    setDatabaseForPlugins_keeps h n,
    fun n2 parent w => initPlugin_keeps h n n2 parent w,
    fun parent w => initPlugins_keeps h n parent w,
    fun n2 force w => destroy_keeps h n n2 force w,
    fun w => destroyAll_keeps h n w⟩
  · intro hact
    unfold PluginHandler.isPluginActive at hact
    unfold PluginHandler.isPluginInstantiated
    cases hl : lookupAssoc h.plugins n with
    | none => rw [hl] at hact; simp at hact
    | some e =>
      rw [hl] at hact
      simp only at hact
      cases hi : e.inst with
      | none => rw [hi] at hact; simp at hact
      | some q => simp [hi]
  · intro hins
    unfold PluginHandler.isPluginInstantiated at hins
    unfold PluginHandler.pluginExists
    cases hl : lookupAssoc h.plugins n with
    | none => rw [hl] at hins; simp at hins
    | some e => simp
  · intro hnex
    unfold PluginHandler.pluginExists at hnex
    cases hl : lookupAssoc h.plugins n with
    | some e => rw [hl] at hnex; simp at hnex
    | none =>
      refine ⟨?_, ?_, ?_, ?_⟩ <;>
        simp [PluginHandler.getPluginInstance, PluginHandler.getPluginConfig,
          PluginHandler.isPluginInstantiated, PluginHandler.isPluginActive, hl]

/-! Witnesses: every hypothesis-bearing claim theorem applied at a fully
concrete input. -/

/-- C1 witness: the amended theorem at a concrete instance whose `init`
throws `boom`. -/
theorem claim1_init_failure_contained_witness :
    ((handler1 (.throws "boom") (.ret true)).initPlugin "p" parent0 world0).1 = .ok () ∧
    PluginHandler.isPluginInstantiated
      ((handler1 (.throws "boom") (.ret true)).initPlugin "p" parent0 world0).2.1 "p" = true ∧
    PluginHandler.isPluginActive
      ((handler1 (.throws "boom") (.ret true)).initPlugin "p" parent0 world0).2.1 "p" = false ∧
    lookupAssoc ((handler1 (.throws "boom") (.ret true)).initPlugin "p" parent0 world0).2.2.states
      ((plugin0 (.throws "boom") (.ret true)).pluginNamespace ++ ".enabled") =
      some { val := .bool false, ack := true,
             fromId := (plugin0 (.throws "boom") (.ret true)).pluginNamespace } :=
  claim1_init_failure_contained (handler1 (.throws "boom") (.ret true)) "p"
    { config := cfgUndef, inst := some (plugin0 (.throws "boom") (.ret true)) }
    (plugin0 (.throws "boom") (.ret true)) parent0 world0 "boom"
    (by decide) (by decide) (by decide) (by decide) (by decide)

/-- C2 witness: the amended theorem at a concrete successful load. -/
theorem claim2_entry_on_failure_witness :
    (handler0.instantiatePlugin "x" cfgUndef
      { resolved := some "/p/x", requireOk := true,
        constructed := some (.ok, .ret true) }).pluginExists "x" = true :=
  ((claim2_entry_on_failure handler0 "x" cfgUndef
      { resolved := some "/p/x", requireOk := true, constructed := some (.ok, .ret true) }
      (by decide)).2 "/p/x" rfl (by decide) rfl).1

/-- C3 witness: a persisted concrete `false` overrides `enabled: true` in
the configuration. -/
theorem claim3_persisted_false_disables_witness :
    ((plugin0 .ok (.ret true)).initPlugin (some cfgTrue) parent0 worldFalse).1 = .ok () ∧
    ((plugin0 .ok (.ret true)).initPlugin (some cfgTrue) parent0 worldFalse).2.1.isActive =
      false ∧
    ((plugin0 .ok (.ret true)).initPlugin (some cfgTrue) parent0 worldFalse).2.1.initCalls =
      (plugin0 .ok (.ret true)).initCalls :=
  claim3_persisted_false_disables (plugin0 .ok (.ret true)) cfgTrue parent0 worldFalse
    { val := .bool false, ack := true, fromId := "x" }
    (by decide) (by decide) (by decide) (by decide) (by decide) (by decide)

/-- C4 witness: the adapter-scoped plugin inherits the host-scoped
persisted `false` through the namespace derivation, overriding
`enabled: true` in the configuration. -/
theorem claim4_host_false_overrides_witness :
    ((pluginA .ok (.ret true)).initPlugin (some cfgTrue) parentA worldHostFalse).1 = .ok () ∧
    ((pluginA .ok (.ret true)).initPlugin (some cfgTrue) parentA worldHostFalse).2.1.isActive =
      false ∧
    ((pluginA .ok (.ret true)).initPlugin (some cfgTrue) parentA worldHostFalse).2.1.initCalls =
      (pluginA .ok (.ret true)).initCalls :=
  claim4_host_false_overrides (pluginA .ok (.ret true)) cfgTrue parentA
    { name := "testA", host := some "h1" } "h1" worldHostFalse
    { val := .bool false, ack := true, fromId := "x" }
    (by decide) (by decide) (by decide) (by decide) (by decide) (by decide) (by decide)
    (by decide) (by decide) (by decide) (by decide)

/-- C5 witness: a never-persisted plugin with no `enabled` key defaults to
enabled, runs `init` and persists `enabled = true`. -/
theorem claim5_default_enabled_witness :
    ((plugin0 .ok (.ret true)).initPlugin (some cfgUndef) parent0 world0).1 = .ok () ∧
    ((plugin0 .ok (.ret true)).initPlugin (some cfgUndef) parent0 world0).2.1.isActive = true ∧
    ((plugin0 .ok (.ret true)).initPlugin (some cfgUndef) parent0 world0).2.1.initCalls =
      (plugin0 .ok (.ret true)).initCalls + 1 ∧
    lookupAssoc ((plugin0 .ok (.ret true)).initPlugin (some cfgUndef) parent0 world0).2.2.2.states
      ((plugin0 .ok (.ret true)).pluginNamespace ++ ".enabled") =
      some { val := .bool true, ack := true,
             fromId := (plugin0 .ok (.ret true)).pluginNamespace } :=
  claim5_default_enabled (plugin0 .ok (.ret true)) cfgUndef parent0 world0
    (by decide) (by decide) (by decide) (by decide) (by decide)
    (by intro common host hc hh; simp [parent0] at hc)

/-- C6 witness: an unforced destroy against an implementer returning
`false` fails and keeps the instance; the follow-up forced destroy
removes it. -/
theorem claim6_destroy_false_retries_witness :
    ((handler1 .ok (.ret false)).destroy "p" false world0).1 = .ok false ∧
    PluginHandler.isPluginInstantiated
      ((handler1 .ok (.ret false)).destroy "p" false world0).2.1 "p" = true ∧
    PluginHandler.isPluginInstantiated
      (((handler1 .ok (.ret false)).destroy "p" false world0).2.1.destroy "p" true
        ((handler1 .ok (.ret false)).destroy "p" false world0).2.2).2.1 "p" = false :=
  ⟨(claim6_destroy_false_retries (handler1 .ok (.ret false)) "p"
      { config := cfgUndef, inst := some (plugin0 .ok (.ret false)) }
      (plugin0 .ok (.ret false)) world0 (by decide) (by decide) (Or.inl (by decide))).1,
   (claim6_destroy_false_retries (handler1 .ok (.ret false)) "p"
      { config := cfgUndef, inst := some (plugin0 .ok (.ret false)) }
      (plugin0 .ok (.ret false)) world0 (by decide) (by decide) (Or.inl (by decide))).2.2.1,
   (claim6_destroy_false_retries (handler1 .ok (.ret false)) "p"
      { config := cfgUndef, inst := some (plugin0 .ok (.ret false)) }
      (plugin0 .ok (.ret false)) world0 (by decide) (by decide) (Or.inl (by decide))).2.2.2.2.1⟩

/-- C7 witness: `destroyAll` on a registry whose single plugin's
`destroy()` throws still removes the instance. -/
theorem claim7_destroyAll_clears_all_witness :
    ((handler1 .ok (.throws "x")).destroyAll world0).1.getPluginInstance "p" = none :=
  (claim7_destroyAll_clears_all (handler1 .ok (.throws "x")) world0 (by decide)).1 "p"

/-- C9 witness: a duplicate `instantiatePlugin` with a live instance
present returns the registry unchanged. -/
theorem claim9_duplicate_noop_witness :
    (handler1 .ok (.ret true)).instantiatePlugin "p" cfgTrue
      { resolved := some "/q", requireOk := true, constructed := none } =
      handler1 .ok (.ret true) :=
  claim9_duplicate_noop (handler1 .ok (.ret true)) "p" cfgTrue
    { resolved := some "/q", requireOk := true, constructed := none } (by decide)

/-- C10 witness: the query hierarchy at a concrete instantiated plugin. -/
theorem claim10_query_invariants_witness :
    (handler1 .ok (.ret true)).pluginExists "p" = true :=
  (claim10_query_invariants (handler1 .ok (.ret true)) "p").2.1 (by decide)

end PluginSpec
